import Mathlib

/-!
Verification development for the NFL process-mining transformation pipeline
(`run_transformation.py`).  The pipeline fetches raw play-by-play data,
transforms it into an event log, validates the result, persists it to CSV and
prints a report.  We embed the validator, the persister, the reporting step and
the driving `main` function directly from the Python source; the SQL
transformation ruleset (`transform_data.sql`) is not part of the sources, so
the transformation stage is modelled from the specification where claims need
it.
-/

/-! ## Data model: tabular event logs

A pandas `DataFrame` is embedded as a list of named columns plus a list of
rows; every cell is an `Option String`, with `none` standing for a null (NaN)
cell.  Missing cells of a ragged row also read as null. -/

structure DataFrame where
  columns : List String
  rows : List (List (Option String))
deriving DecidableEq

/-- Cell of row `r` in column `c` of `df` (null when the column is absent or
the row is too short), as pandas column indexing reads it. -/
def cellAt (df : DataFrame) (r : List (Option String)) (c : String) : Option String :=
  match df.columns.findIdx? (fun k => k == c) with
  | some i => (r.get? i).join
  | none => none

/-- The values of column `c`, in row order (`df[c]`); empty when the column is
absent. -/
def getCol (df : DataFrame) (c : String) : List (Option String) :=
  match df.columns.findIdx? (fun k => k == c) with
  | some i => df.rows.map (fun r => (r.get? i).join)
  | none => []

/-- Distinct values of a column in order of first occurrence, nulls included,
as `pandas.Series.unique` returns them. -/
def uniqueVals (l : List (Option String)) : List (Option String) :=
  l.foldl (fun acc x => if x ∈ acc then acc else acc ++ [x]) []

/-- Distinct non-null count of a column (`pandas.Series.nunique`). -/
def nuniqueCol (df : DataFrame) (c : String) : Nat :=
  ((uniqueVals (getCol df c)).filterMap id).length

/-! ## Validator (`validate_transformation`, run_transformation.py lines 99-149)

The Python function prints a message and returns `False` at the first failed
check; on success it prints summary statistics and returns `True`.  We return
the boolean together with the list of violation messages it reports (empty on
success). -/

def requiredColumns : List String := ["case_id", "activity_name", "transformed_time"]

def validate_transformation (df : DataFrame) : Bool × List String :=
  if requiredColumns.any (fun c => !(df.columns.contains c)) then
    (false, ["Missing required columns"])
  else if df.rows.isEmpty then
    (false, ["Event log is empty"])
  else if (getCol df "case_id").any Option.isNone then
    (false, ["Found NULL case_id values"])
  else if (getCol df "activity_name").any Option.isNone then
    (false, ["Found NULL activity_name values"])
  else if df.columns.contains "posteam" && !(uniqueVals (getCol df "posteam") == [some "NE"]) then
    (false, ["Expected only NE data"])
  else
    (true, [])

/-- The summary statistics printed by the validator on success: total event
count, distinct case count, distinct activity-type count. -/
def validation_stats (df : DataFrame) : Nat × Nat × Nat :=
  (df.rows.length, nuniqueCol df "case_id", nuniqueCol df "activity_name")

/-- The first four checks of the validator (columns present, non-empty, no
null `case_id`, no null `activity_name`), as one boolean. -/
def basicChecksPass (df : DataFrame) : Bool :=
  requiredColumns.all (fun c => df.columns.contains c) &&
  !df.rows.isEmpty &&
  !(getCol df "case_id").any Option.isNone &&
  !(getCol df "activity_name").any Option.isNone

/-- The validator's checks as the claim describes them: required columns
present, non-empty, no null `case_id`, no null `activity_name`, and exactly
one distinct value in the possession-team column. -/
def claimed_validate (df : DataFrame) : Bool :=
  basicChecksPass df && (uniqueVals (getCol df "posteam")).length == 1

/-- The validator's checks as the code actually performs them: the four basic
checks, and, only when the `posteam` column is present, that its distinct
values are exactly `["NE"]`. -/
def amended_checks (df : DataFrame) : Bool :=
  basicChecksPass df &&
  (!(df.columns.contains "posteam") || uniqueVals (getCol df "posteam") == [some "NE"])

/-- The checks of the validator, in order, paired with the message the code
prints when the check is violated. -/
def checkList (df : DataFrame) : List (Bool × String) :=
  [ (requiredColumns.any (fun c => !(df.columns.contains c)), "Missing required columns"),
    (df.rows.isEmpty, "Event log is empty"),
    ((getCol df "case_id").any Option.isNone, "Found NULL case_id values"),
    ((getCol df "activity_name").any Option.isNone, "Found NULL activity_name values"),
    (df.columns.contains "posteam" && !(uniqueVals (getCol df "posteam") == [some "NE"]),
      "Expected only NE data") ]

/-- The message of the first violated check, if any. -/
def firstViolationMsg (df : DataFrame) : Option String :=
  ((checkList df).find? (fun p => p.1)).map (fun p => p.2)

/-! ## Persister and reporter (`save_output`, `display_sample_output`,
run_transformation.py lines 151-187)

The file system visible to the pipeline is the output directory and the single
output file `outputs/nfl_eventlog.csv`, held as the list of its lines. -/

structure FS where
  outDirExists : Bool
  outFile : Option (List String)
deriving DecidableEq

/-- CSV rendering of one cell: nulls print as the empty field. -/
def csvCell : Option String → String
  | none => ""
  | some s => s

/-- One CSV line. -/
def csvLine (cells : List String) : String := String.intercalate "," cells

/-- CSV serialization of a data frame: header row, then one line per row
(`DataFrame.to_csv` with `index=False`). -/
def toCsvLines (df : DataFrame) : List String :=
  csvLine df.columns :: df.rows.map (fun r => csvLine (r.map csvCell))

/-- `save_output`: create the output directory if absent, then write the CSV,
replacing whatever file was there before. -/
def save_output (df : DataFrame) (_fs : FS) : FS :=
  { outDirExists := true, outFile := some (toCsvLines df) }

/-- The columns `display_sample_output` tries to show, in order. -/
def sample_columns : List String :=
  ["case_id", "activity_name", "transformed_time", "down", "yards_gained"]

/-- Comparison used to rank activity counts: larger count first
(`value_counts` sorts descending; the underlying sort is stable, so ties keep
first-occurrence order). -/
def countGe (a b : String × Nat) : Prop := b.2 ≤ a.2

instance : DecidableRel countGe := fun a b => Nat.decLe b.2 a.2

instance : IsTotal (String × Nat) countGe := ⟨fun a b => Nat.le_total b.2 a.2⟩

instance : IsTrans (String × Nat) countGe := ⟨fun _ _ _ h h2 => le_trans h2 h⟩

/-- `pandas.Series.value_counts`: distinct non-null values with their
occurrence counts, sorted by count descending (stable). -/
def value_counts (l : List (Option String)) : List (String × Nat) :=
  let vals := l.filterMap id
  List.insertionSort countGe
    (((uniqueVals l).filterMap id).map (fun v => (v, vals.count v)))

/-- `display_sample_output`: the first 10 rows projected to the available
sample columns, and the 10 most frequent activity labels with their counts. -/
def display_sample_output (df : DataFrame) : List (List (Option String)) × List (String × Nat) :=
  let avail := sample_columns.filter (fun c => df.columns.contains c)
  ((df.rows.take 10).map (fun r => avail.map (fun c => cellAt df r c)),
   (value_counts (getCol df "activity_name")).take 10)

/-! ## The driving pipeline (`main`, run_transformation.py lines 189-224)

Acquisition and the SQL transformation engine perform I/O whose success we
cannot decide inside the embedding, so `main` is parametrised by the outcome
of each of those stages: a stage either returns a value, raises an ordinary
exception (`sqlite3.Error`, network failure, ...), or is interrupted by the
user (`KeyboardInterrupt`, which is not an `Exception` in Python 3 and so
propagates to the `except KeyboardInterrupt` handler of `main`). -/

inductive StageOutcome (α : Type) where
  | ok (a : α)
  | error
  | cancelled
deriving DecidableEq

/-- Observable steps of a run, in the order they happen. -/
inductive StepEvent where
  | downloaded
  | transformed
  | statsShown
  | outputWritten
  | sampleShown
deriving DecidableEq

/-- The `main` function of the script: download, transform, validate, save,
display; exit code 1 on any stage failure or failed validation, 0 on success
and on `KeyboardInterrupt`.  Returns the exit code, the trace of observable
steps, and the final file system. -/
def mainPipeline (fetch : StageOutcome DataFrame)
    (transform : DataFrame → StageOutcome DataFrame) (fs : FS) :
    Nat × List StepEvent × FS :=
  match fetch with
  | .cancelled => (0, [], fs)
  | .error => (1, [], fs)
  | .ok raw =>
    match transform raw with
    | .cancelled => (0, [.downloaded], fs)
    | .error => (1, [.downloaded], fs)
    | .ok ev =>
      if (validate_transformation ev).1 then
        (0, [.downloaded, .transformed, .statsShown, .outputWritten, .sampleShown],
         save_output ev fs)
      else
        (1, [.downloaded, .transformed], fs)

/-! ## Transformation engine

The declarative ruleset `src/transform_data.sql` that `execute_sql_transformation`
runs is not among the sources; §4.2 of the specification defines its stages
(scoping filter, case derivation, activity derivation, time derivation,
projection, ordering), and the definitions below follow those words. -/

/-- Modelled from the spec: `src/transform_data.sql` is missing; one raw
play-by-play record, with the columns §4.2 names (team on offense, game and
drive identifiers, down, play type, yards gained, outcome flags, a raw
time-of-play indicator). -/
structure RawPlay where
  posteam : Option String
  game_id : String
  drive : Nat
  down : Option Nat
  play_type : Option String
  yards_gained : Int
  touchdown : Bool
  turnover : Bool
  time_of_play : Nat
deriving DecidableEq

/-- Modelled from the spec: the single configured possession team of the
scoping filter. -/
def configured_team : String := "NE"

/-- Modelled from the spec: the scoping predicate of §4.2 stage 1,
`possession_team == configured_team`. -/
def scoping_filter (p : RawPlay) : Bool := p.posteam == some configured_team

/-- Modelled from the spec: case derivation (§4.2 stage 2), a deterministic
function of the game identifier and the drive number. -/
def derive_case_id (p : RawPlay) : String := p.game_id ++ "_" ++ toString p.drive

/-- Modelled from the spec: activity derivation (§4.2 stage 3), a prioritized
total classification over outcome flags, play type, down and yards gained,
with the fallback label `other_play` for rows matching no specific rule. -/
def derive_activity (p : RawPlay) : String :=
  if p.touchdown then "touchdown"
  else if p.turnover then "turnover"
  else if p.play_type == some "pass" then
    (if p.yards_gained > 0 then "pass_gain" else "pass_no_gain")
  else if p.play_type == some "run" then
    (if p.yards_gained > 0 then "run_gain" else "run_no_gain")
  else if p.play_type == some "punt" then
    (if p.down == some 4 then "punt" else "unexpected_punt")
  else "other_play"

/-- A raw play matching none of the specific classification rules of
`derive_activity`. -/
def matches_no_rule (p : RawPlay) : Bool :=
  !p.touchdown && !p.turnover &&
  !(p.play_type == some "pass") && !(p.play_type == some "run") &&
  !(p.play_type == some "punt")

/-- Modelled from the spec: one transformed event (§3 EventRecord): case
identifier, activity label, transformed time, original row index (the
documented tie-break key), and the descriptive passthrough columns. -/
structure EventRecord where
  case_id : String
  activity_name : String
  transformed_time : Nat
  row_index : Nat
  down : Option Nat
  yards_gained : Int
  posteam : Option String
deriving DecidableEq

/-- Modelled from the spec: stages 2-5 of §4.2 on one raw row carrying its
original index: case derivation, activity derivation, time derivation (a
monotone function of the raw chronological field) and column projection. -/
def make_event (idx : Nat) (p : RawPlay) : EventRecord :=
  { case_id := derive_case_id p
    activity_name := derive_activity p
    transformed_time := p.time_of_play
    row_index := idx
    down := p.down
    yards_gained := p.yards_gained
    posteam := p.posteam }

/-- The ordering of §4.2 stage 6: lexicographic on (case_id, transformed_time),
ties broken by the original row index. -/
def eventLe (a b : EventRecord) : Prop :=
  a.case_id < b.case_id ∨
    (a.case_id = b.case_id ∧
      (a.transformed_time < b.transformed_time ∨
        (a.transformed_time = b.transformed_time ∧ a.row_index ≤ b.row_index)))

/-- The strict version of `eventLe`: strict also in the tie-break key. -/
def eventLt (a b : EventRecord) : Prop :=
  a.case_id < b.case_id ∨
    (a.case_id = b.case_id ∧
      (a.transformed_time < b.transformed_time ∨
        (a.transformed_time = b.transformed_time ∧ a.row_index < b.row_index)))

instance : DecidableRel eventLe := fun a b => by unfold eventLe; infer_instance

instance : DecidableRel eventLt := fun a b => by unfold eventLt; infer_instance

instance : IsTotal EventRecord eventLe := by
  constructor
  intro a b
  rcases lt_trichotomy a.case_id b.case_id with h | h | h
  · exact Or.inl (Or.inl h)
  · rcases lt_trichotomy a.transformed_time b.transformed_time with h2 | h2 | h2
    · exact Or.inl (Or.inr ⟨h, Or.inl h2⟩)
    · rcases Nat.le_total a.row_index b.row_index with h3 | h3
      · exact Or.inl (Or.inr ⟨h, Or.inr ⟨h2, h3⟩⟩)
      · exact Or.inr (Or.inr ⟨h.symm, Or.inr ⟨h2.symm, h3⟩⟩)
    · exact Or.inr (Or.inr ⟨h.symm, Or.inl h2⟩)
  · exact Or.inr (Or.inl h)

instance : IsTrans EventRecord eventLe := by
  constructor
  intro a b c hab hbc
  rcases hab with h | ⟨he, h⟩
  · rcases hbc with h2 | ⟨he2, _⟩
    · exact Or.inl (lt_trans h h2)
    · exact Or.inl (he2 ▸ h)
  · rcases hbc with h2 | ⟨he2, h2⟩
    · exact Or.inl (he ▸ h2)
    · refine Or.inr ⟨he.trans he2, ?_⟩
      rcases h with h | ⟨ht, h⟩
      · rcases h2 with h2 | ⟨ht2, _⟩
        · exact Or.inl (lt_trans h h2)
        · exact Or.inl (ht2 ▸ h)
      · rcases h2 with h2 | ⟨ht2, h2⟩
        · exact Or.inl (ht ▸ h2)
        · exact Or.inr ⟨ht.trans ht2, le_trans h h2⟩

instance : IsAntisymm EventRecord eventLt := by
  constructor
  intro a b hab hba
  exfalso
  rcases hab with h | ⟨he, h⟩
  · rcases hba with h2 | ⟨he2, _⟩
    · exact lt_irrefl _ (lt_trans h h2)
    · exact lt_irrefl _ (he2 ▸ h)
  · rcases hba with h2 | ⟨_, h2⟩
    · exact lt_irrefl _ (he ▸ h2)
    · rcases h with h | ⟨ht, h⟩
      · rcases h2 with h2 | ⟨ht2, _⟩
        · exact lt_irrefl _ (lt_trans h h2)
        · exact lt_irrefl _ (ht2 ▸ h)
      · rcases h2 with h2 | ⟨_, h2⟩
        · exact lt_irrefl _ (ht ▸ h2)
        · exact Nat.lt_irrefl _ (Nat.lt_trans h h2)

/-- Modelled from the spec: the whole transformation of §4.2 in place of the
missing `src/transform_data.sql`: index the raw rows, apply the scoping
filter, derive one event per remaining row, and sort by
(case_id, transformed_time) with the row index as tie-break. -/
def transform_pipeline (raws : List RawPlay) : List EventRecord :=
  List.insertionSort eventLe
    (((raws.enum).filter (fun ip => scoping_filter ip.2)).map
      (fun ip => make_event ip.1 ip.2))

/-! ## Concrete fixtures used by witnesses and counterexamples -/

/-- An initial file system: no output directory, no output file. -/
def fs0 : FS := { outDirExists := false, outFile := none }

/-- A well-formed event log for the configured team. -/
def goodDf : DataFrame :=
  { columns := ["case_id", "activity_name", "transformed_time", "posteam"]
    rows := [[some "g1_1", some "pass_gain", some "1", some "NE"],
             [some "g1_1", some "run_gain", some "2", some "NE"]] }

/-- An event log identical in shape to `goodDf` but for a single different
team. -/
def kcDf : DataFrame :=
  { columns := ["case_id", "activity_name", "transformed_time", "posteam"]
    rows := [[some "g1_1", some "pass_gain", some "1", some "KC"]] }

/-- An event log with the required columns but no rows. -/
def emptyDf : DataFrame :=
  { columns := ["case_id", "activity_name", "transformed_time"], rows := [] }

/-- An event log violating two checks at once: a null `case_id` and a null
`activity_name`. -/
def dualNullDf : DataFrame :=
  { columns := ["case_id", "activity_name", "transformed_time"]
    rows := [[none, none, some "1"]] }

/-- A well-formed event log without a `posteam` column. -/
def noPosteamDf : DataFrame :=
  { columns := ["case_id", "activity_name", "transformed_time"]
    rows := [[some "g1_1", some "pass_gain", some "1"]] }

/-- An event log holding rows of two different possession teams. -/
def twoTeamDf : DataFrame :=
  { columns := ["case_id", "activity_name", "transformed_time", "posteam"]
    rows := [[some "g1_1", some "pass_gain", some "1", some "NE"],
             [some "g2_1", some "run_gain", some "2", some "KC"]] }

/-- A raw play of the configured team: a seven-yard pass. -/
def rawA : RawPlay :=
  { posteam := some "NE", game_id := "2007_01_NE_NYJ", drive := 2, down := some 1
    play_type := some "pass", yards_gained := 7, touchdown := false, turnover := false
    time_of_play := 5 }

/-- A raw play of another team, excluded by the scoping filter. -/
def rawB : RawPlay :=
  { posteam := some "KC", game_id := "2007_01_KC_HOU", drive := 1, down := some 1
    play_type := some "run", yards_gained := 3, touchdown := false, turnover := false
    time_of_play := 1 }

/-- A raw play of the configured team matching no specific classification
rule. -/
def rawC : RawPlay :=
  { posteam := some "NE", game_id := "2007_01_NE_NYJ", drive := 1, down := some 3
    play_type := none, yards_gained := 0, touchdown := false, turnover := false
    time_of_play := 9 }

/-- The unsorted event list of the transformation: one event per raw row that
passes the scoping filter, in raw order. -/
def filtered_events (raws : List RawPlay) : List EventRecord :=
  ((raws.enum).filter (fun ip => scoping_filter ip.2)).map (fun ip => make_event ip.1 ip.2)

/-! ## Helper lemmas -/

theorem validate_eq_amended (df : DataFrame) :
    (validate_transformation df).1 = amended_checks df := by
  unfold validate_transformation amended_checks basicChecksPass
  have hany : (requiredColumns.any fun c => !df.columns.contains c)
      = !(requiredColumns.all fun c => df.columns.contains c) := by
    rw [List.all_eq_not_any_not]
    simp
  rw [hany]
  cases h1 : (requiredColumns.all fun c => df.columns.contains c) <;>
    cases h2 : df.rows.isEmpty <;>
      cases h3 : (getCol df "case_id").any Option.isNone <;>
        cases h4 : (getCol df "activity_name").any Option.isNone <;>
          cases h5 : df.columns.contains "posteam" <;>
            cases h6 : uniqueVals (getCol df "posteam") == [some "NE"] <;>
              simp [h1, h2, h3, h4, h5, h6]

theorem validate_msgs (df : DataFrame) :
    (validate_transformation df).2 = (firstViolationMsg df).toList ∧
    ((validate_transformation df).1 = true ↔ firstViolationMsg df = none) := by
  unfold validate_transformation firstViolationMsg checkList
  cases h1 : (requiredColumns.any fun c => !df.columns.contains c) <;>
    cases h2 : df.rows.isEmpty <;>
      cases h3 : (getCol df "case_id").any Option.isNone <;>
        cases h4 : (getCol df "activity_name").any Option.isNone <;>
          cases h5 : (df.columns.contains "posteam" &&
              !(uniqueVals (getCol df "posteam") == [some "NE"])) <;>
            simp [h1, h2, h3, h4, h5, List.find?]

theorem transform_perm (raws : List RawPlay) :
    (transform_pipeline raws).Perm (filtered_events raws) :=
  List.perm_insertionSort eventLe _

theorem transform_sorted (raws : List RawPlay) :
    List.Sorted eventLe (transform_pipeline raws) :=
  List.sorted_insertionSort eventLe _

theorem filtered_events_row_index (raws : List RawPlay) :
    (filtered_events raws).map EventRecord.row_index
      = ((raws.enum).filter (fun ip => scoping_filter ip.2)).map Prod.fst := by
  unfold filtered_events
  rw [List.map_map]
  rfl

theorem transform_row_index_perm (raws : List RawPlay) :
    ((transform_pipeline raws).map EventRecord.row_index).Perm
      (((raws.enum).filter (fun ip => scoping_filter ip.2)).map Prod.fst) := by
  rw [← filtered_events_row_index]
  exact (transform_perm raws).map _

theorem transform_row_index_nodup (raws : List RawPlay) :
    ((transform_pipeline raws).map EventRecord.row_index).Nodup := by
  rw [(transform_row_index_perm raws).nodup_iff]
  exact (List.nodup_enum_map_fst raws).sublist ((List.filter_sublist _).map _)

theorem eventLe_ne_lt (a b : EventRecord) (h : eventLe a b ∧ a.row_index ≠ b.row_index) :
    eventLt a b := by
  rcases h with ⟨hle, hne⟩
  rcases hle with h | ⟨he, h⟩
  · exact Or.inl h
  · rcases h with h | ⟨ht, h⟩
    · exact Or.inr ⟨he, Or.inl h⟩
    · exact Or.inr ⟨he, Or.inr ⟨ht, lt_of_le_of_ne h hne⟩⟩

theorem eventLe_case_time (a b : EventRecord) (h : eventLe a b) (hc : a.case_id = b.case_id) :
    a.transformed_time ≤ b.transformed_time := by
  rcases h with h | ⟨_, h⟩
  · rw [hc] at h
    exact absurd h (lt_irrefl _)
  · rcases h with h | ⟨ht, _⟩
    · exact le_of_lt h
    · exact le_of_eq ht

theorem transform_sorted_lt (raws : List RawPlay) :
    List.Sorted eventLt (transform_pipeline raws) := by
  have hle : List.Pairwise eventLe (transform_pipeline raws) := transform_sorted raws
  have hne : List.Pairwise (fun a b : EventRecord => a.row_index ≠ b.row_index)
      (transform_pipeline raws) :=
    List.pairwise_map.mp (transform_row_index_nodup raws)
  exact (hle.and hne).imp (eventLe_ne_lt _ _)

theorem derive_activity_ne_empty (p : RawPlay) : derive_activity p ≠ "" := by
  unfold derive_activity
  repeat' split
  all_goals decide

theorem matches_no_rule_fallback (p : RawPlay) (h : matches_no_rule p = true) :
    derive_activity p = "other_play" := by
  unfold matches_no_rule at h
  simp only [Bool.and_eq_true, Bool.not_eq_true'] at h
  obtain ⟨⟨⟨⟨htd, hto⟩, hp⟩, hr⟩, hpu⟩ := h
  simp [derive_activity, htd, hto, hp, hr, hpu]

/-! ## Claims -/

/-- C1, counterexample: on an event log whose possession-team column holds the
single distinct value `KC`, every check of the claim passes (columns present,
non-empty, no null `case_id` or `activity_name`, exactly one distinct
possession team), yet the validator returns failure. -/
theorem C1_counterexample :
    claimed_validate kcDf = true ∧ (validate_transformation kcDf).1 = false := by
  refine ⟨by decide, by decide⟩

/-- C1 (amended): the validator returns success exactly when the four basic
checks pass (required columns present, non-empty, no null `case_id`, no null
`activity_name`) and, whenever the `posteam` column is present, its distinct
values are exactly `["NE"]`; the possession-team check is skipped when the
column is absent and demands the specific team `NE`, not merely a single
distinct value. -/
theorem C1_validator_amended (df : DataFrame) :
    (validate_transformation df).1 = amended_checks df :=
  validate_eq_amended df

/-- C6: whenever the possession-team column is present and holds two or more
distinct values, the validator fails. -/
theorem C6_multi_team_fails (df : DataFrame)
    (hcol : df.columns.contains "posteam" = true)
    (hlen : 2 ≤ (uniqueVals (getCol df "posteam")).length) :
    (validate_transformation df).1 = false := by
  rw [validate_eq_amended]
  unfold amended_checks
  rw [hcol]
  cases hu : uniqueVals (getCol df "posteam") == [some "NE"]
  · simp
  · have heq : uniqueVals (getCol df "posteam") = [some "NE"] := eq_of_beq hu
    rw [heq] at hlen
    simp at hlen

/-- C6, witness: a dataset holding rows of the two teams `NE` and `KC` has two
distinct possession-team values and is rejected by the validator. -/
theorem C6_witness :
    twoTeamDf.columns.contains "posteam" = true ∧
    2 ≤ (uniqueVals (getCol twoTeamDf "posteam")).length ∧
    (validate_transformation twoTeamDf).1 = false :=
  ⟨by decide, by decide, C6_multi_team_fails twoTeamDf (by decide) (by decide)⟩

/-- C8, counterexample: on an event log in which both the `case_id` column and
the `activity_name` column contain nulls, the validator reports only the
`case_id` violation; the violated `activity_name` check is not reported, so
not every failed check is reported. -/
theorem C8_counterexample :
    (getCol dualNullDf "case_id").any Option.isNone = true ∧
    (getCol dualNullDf "activity_name").any Option.isNone = true ∧
    (validate_transformation dualNullDf).2 = ["Found NULL case_id values"] ∧
    ¬ ("Found NULL activity_name values" ∈ (validate_transformation dualNullDf).2) := by
  refine ⟨by decide, by decide, by decide, by decide⟩

/-- C8 (amended): the validator returns pass/fail together with the message of
the first violated check in check order: it short-circuits, so when several
checks fail only the first is reported; it never passes while some check is
violated, since it succeeds exactly when no check is violated. -/
theorem C8_first_violation_reported (df : DataFrame) :
    (validate_transformation df).2 = (firstViolationMsg df).toList ∧
    ((validate_transformation df).1 = true ↔ firstViolationMsg df = none) :=
  validate_msgs df

/-- C10: when the `posteam` column is absent the validator skips the
possession-team check and its verdict is exactly that of the four basic
checks; when the column is present, the validator succeeds only if the basic
checks pass and the single distinct possession-team value is exactly `NE`. -/
theorem C10_posteam_check :
    (∀ df : DataFrame, df.columns.contains "posteam" = false →
      (validate_transformation df).1 = basicChecksPass df) ∧
    (∀ df : DataFrame, df.columns.contains "posteam" = true →
      ((validate_transformation df).1 = true ↔
        (basicChecksPass df = true ∧ uniqueVals (getCol df "posteam") = [some "NE"]))) := by
  constructor
  · intro df hcol
    rw [validate_eq_amended]
    unfold amended_checks
    rw [hcol]
    simp
  · intro df hcol
    rw [validate_eq_amended]
    unfold amended_checks
    rw [hcol]
    simp [Bool.and_eq_true, beq_iff_eq]

/-- C10, witness: a well-formed log without a `posteam` column passes
validation (the check is skipped), and on a log with the column present the
characterization through the single value `NE` holds. -/
theorem C10_witness :
    (validate_transformation noPosteamDf).1 = basicChecksPass noPosteamDf ∧
    (validate_transformation noPosteamDf).1 = true ∧
    ((validate_transformation goodDf).1 = true ↔
      (basicChecksPass goodDf = true ∧ uniqueVals (getCol goodDf "posteam") = [some "NE"])) :=
  ⟨C10_posteam_check.1 noPosteamDf (by decide), by decide,
   C10_posteam_check.2 goodDf (by decide)⟩

/-- C2: whenever the transformation succeeded but validation fails, the
pipeline exits with code 1, the file system is left untouched (no output file
is written, not even partially), and the write step never appears in the run's
trace. -/
theorem C2_no_output_on_validation_failure
    (fetch : StageOutcome DataFrame) (transform : DataFrame → StageOutcome DataFrame)
    (fs : FS) (raw ev : DataFrame)
    (hf : fetch = .ok raw) (ht : transform raw = .ok ev)
    (hv : (validate_transformation ev).1 = false) :
    (mainPipeline fetch transform fs).1 = 1 ∧
    (mainPipeline fetch transform fs).2.2 = fs ∧
    ¬ (StepEvent.outputWritten ∈ (mainPipeline fetch transform fs).2.1) := by
  subst hf
  simp [mainPipeline, ht, hv]

/-- C2, witness: a run whose transformation yields an empty event log fails
validation, exits with code 1, and writes nothing. -/
theorem C2_witness :
    (mainPipeline (.ok goodDf) (fun _ : DataFrame => .ok emptyDf) fs0).1 = 1 ∧
    (mainPipeline (.ok goodDf) (fun _ : DataFrame => .ok emptyDf) fs0).2.2 = fs0 ∧
    ¬ (StepEvent.outputWritten ∈
        (mainPipeline (.ok goodDf) (fun _ : DataFrame => .ok emptyDf) fs0).2.1) :=
  C2_no_output_on_validation_failure _ _ _ goodDf emptyDf rfl rfl (by decide)

/-- C7: the process exits with code 0 on a fully successful run and on
user-initiated cancellation during acquisition or transformation, and with the
non-zero code 1 on acquisition failure, transformation failure, and validation
failure. -/
theorem C7_exit_codes
    (fetch : StageOutcome DataFrame) (transform : DataFrame → StageOutcome DataFrame)
    (fs : FS) :
    (fetch = .error → (mainPipeline fetch transform fs).1 = 1) ∧
    (fetch = .cancelled → (mainPipeline fetch transform fs).1 = 0) ∧
    (∀ raw, fetch = .ok raw → transform raw = .error →
      (mainPipeline fetch transform fs).1 = 1) ∧
    (∀ raw, fetch = .ok raw → transform raw = .cancelled →
      (mainPipeline fetch transform fs).1 = 0) ∧
    (∀ raw ev, fetch = .ok raw → transform raw = .ok ev →
      (validate_transformation ev).1 = false → (mainPipeline fetch transform fs).1 = 1) ∧
    (∀ raw ev, fetch = .ok raw → transform raw = .ok ev →
      (validate_transformation ev).1 = true → (mainPipeline fetch transform fs).1 = 0) := by
  refine ⟨?_, ?_, ?_, ?_, ?_, ?_⟩
  · intro hf
    subst hf
    rfl
  · intro hf
    subst hf
    rfl
  · intro raw hf ht
    subst hf
    simp [mainPipeline, ht]
  · intro raw hf ht
    subst hf
    simp [mainPipeline, ht]
  · intro raw ev hf ht hv
    subst hf
    simp [mainPipeline, ht, hv]
  · intro raw ev hf ht hv
    subst hf
    simp [mainPipeline, ht, hv]

/-- C7, witness: each exit-code case at a concrete run: acquisition failure,
cancellation, transformation failure, cancellation during transformation,
validation failure, and full success. -/
theorem C7_witness :
    (mainPipeline .error (fun _ : DataFrame => .ok goodDf) fs0).1 = 1 ∧
    (mainPipeline .cancelled (fun _ : DataFrame => .ok goodDf) fs0).1 = 0 ∧
    (mainPipeline (.ok goodDf) (fun _ : DataFrame => .error) fs0).1 = 1 ∧
    (mainPipeline (.ok goodDf) (fun _ : DataFrame => .cancelled) fs0).1 = 0 ∧
    (mainPipeline (.ok goodDf) (fun _ : DataFrame => .ok emptyDf) fs0).1 = 1 ∧
    (mainPipeline (.ok goodDf) (fun _ : DataFrame => .ok goodDf) fs0).1 = 0 :=
  ⟨(C7_exit_codes _ _ _).1 rfl,
   (C7_exit_codes _ _ _).2.1 rfl,
   (C7_exit_codes _ _ _).2.2.1 goodDf rfl rfl,
   (C7_exit_codes _ _ _).2.2.2.1 goodDf rfl rfl,
   (C7_exit_codes _ _ _).2.2.2.2.1 goodDf emptyDf rfl rfl (by decide),
   (C7_exit_codes _ _ _).2.2.2.2.2 goodDf goodDf rfl rfl (by decide)⟩

/-- C9, counterexample: on a fully successful run, the total event count,
distinct case count and distinct activity count are displayed by the validator
before the output file is written, so the claim that they are computed and
displayed only after the write is false. -/
theorem C9_counterexample :
    (mainPipeline (.ok goodDf) (fun _ : DataFrame => .ok goodDf) fs0).2.1 =
      [.downloaded, .transformed, .statsShown, .outputWritten, .sampleShown] ∧
    (mainPipeline (.ok goodDf) (fun _ : DataFrame => .ok goodDf) fs0).2.1.indexOf
        StepEvent.statsShown <
      (mainPipeline (.ok goodDf) (fun _ : DataFrame => .ok goodDf) fs0).2.1.indexOf
        StepEvent.outputWritten := by
  refine ⟨by decide, by decide⟩

theorem value_counts_sorted (l : List (Option String)) :
    List.Pairwise countGe (value_counts l) :=
  List.sorted_insertionSort countGe _

/-- C9 (amended): on a fully successful run the persister writes the CSV of
the validated event log to the fixed output location, creating the directory
and overwriting any previous file (the result does not depend on the prior
file-system state); the event, case and activity counts are displayed by the
validator before the write; after the write the pipeline displays at most 10
sample rows and the top-10 activity labels ranked by descending count. -/
theorem C9_persist_report_amended :
    (∀ (fetch : StageOutcome DataFrame) (transform : DataFrame → StageOutcome DataFrame)
        (fs : FS) (raw ev : DataFrame), fetch = .ok raw → transform raw = .ok ev →
        (validate_transformation ev).1 = true →
        (mainPipeline fetch transform fs).2.2 =
          { outDirExists := true, outFile := some (toCsvLines ev) } ∧
        (mainPipeline fetch transform fs).2.1 =
          [.downloaded, .transformed, .statsShown, .outputWritten, .sampleShown]) ∧
    (∀ (df : DataFrame) (fs fs' : FS), save_output df fs = save_output df fs') ∧
    (∀ df : DataFrame,
      (display_sample_output df).1.length ≤ 10 ∧
      (display_sample_output df).2.length ≤ 10 ∧
      List.Pairwise countGe (display_sample_output df).2) := by
  refine ⟨?_, ?_, ?_⟩
  · intro fetch transform fs raw ev hf ht hv
    subst hf
    simp [mainPipeline, ht, hv, save_output]
  · intro df fs fs'
    rfl
  · intro df
    have h1 : (display_sample_output df).1 =
        (df.rows.take 10).map (fun r =>
          (sample_columns.filter (fun c => df.columns.contains c)).map
            (fun c => cellAt df r c)) := rfl
    have h2 : (display_sample_output df).2 =
        (value_counts (getCol df "activity_name")).take 10 := rfl
    refine ⟨?_, ?_, ?_⟩
    · rw [h1, List.length_map]
      exact List.length_take_le _ _
    · rw [h2]
      exact List.length_take_le _ _
    · rw [h2]
      exact (value_counts_sorted _).sublist (List.take_sublist _ _)

/-- C9, witness: a concrete successful run ends with the output file holding
the CSV of the event log, the directory created, and the trace showing the
stats display, the write and the sample display in that order. -/
theorem C9_witness :
    (mainPipeline (.ok goodDf) (fun _ : DataFrame => .ok goodDf) fs0).2.2 =
      { outDirExists := true, outFile := some (toCsvLines goodDf) } ∧
    (mainPipeline (.ok goodDf) (fun _ : DataFrame => .ok goodDf) fs0).2.1 =
      [.downloaded, .transformed, .statsShown, .outputWritten, .sampleShown] :=
  C9_persist_report_amended.1 _ _ fs0 goodDf goodDf rfl rfl (by decide)

/-- C3: for every raw play list, the transformation yields exactly one event
per row passing the scoping filter: the output length equals the number of
passing rows, the multiset of original row indices in the output is exactly
the set of indices of passing rows (none dropped, none duplicated), every
produced event carries a non-empty activity label, and any play matching no
specific classification rule receives the defined fallback label. -/
theorem C3_totality (raws : List RawPlay) :
    (transform_pipeline raws).length
        = ((raws.enum).filter (fun ip => scoping_filter ip.2)).length ∧
    ((transform_pipeline raws).map EventRecord.row_index).Perm
        (((raws.enum).filter (fun ip => scoping_filter ip.2)).map Prod.fst) ∧
    ((transform_pipeline raws).map EventRecord.row_index).Nodup ∧
    (∀ e ∈ transform_pipeline raws, e.activity_name ≠ "") ∧
    (∀ p : RawPlay, matches_no_rule p = true → derive_activity p = "other_play") := by
  refine ⟨?_, transform_row_index_perm raws, transform_row_index_nodup raws, ?_,
    matches_no_rule_fallback⟩
  · have h := (transform_row_index_perm raws).length_eq
    simpa using h
  · intro e he
    have he2 : e ∈ filtered_events raws := (transform_perm raws).mem_iff.mp he
    rcases List.mem_map.mp he2 with ⟨ip, _, rfl⟩
    exact derive_activity_ne_empty ip.2

/-- C3, witness: of three raw plays, the two for the configured team produce
exactly two events, and the play matching no rule gets the fallback label. -/
theorem C3_witness :
    (transform_pipeline [rawA, rawB, rawC]).length = 2 ∧
    derive_activity rawC = "other_play" :=
  ⟨(C3_totality [rawA, rawB, rawC]).1.trans (by decide),
   (C3_totality [rawA, rawB, rawC]).2.2.2.2 rawC (by decide)⟩

/-- C4: the transformed output is sorted by (case_id, transformed_time)
ascending (with the original row index as tie-break), and in particular for
any two output positions in the same case, the earlier one's transformed_time
is at most the later one's. -/
theorem C4_ordering (raws : List RawPlay) :
    List.Sorted eventLe (transform_pipeline raws) ∧
    List.Pairwise
      (fun a b : EventRecord =>
        a.case_id = b.case_id → a.transformed_time ≤ b.transformed_time)
      (transform_pipeline raws) :=
  ⟨transform_sorted raws,
   (transform_sorted raws).imp (fun h hc => eventLe_case_time _ _ h hc)⟩

/-- C5: the transformation is deterministic: equal raw inputs give equal
outputs, the output is strictly sorted by the (case_id, transformed_time,
row index) key (the tie-break leaves no ties), and any reordering of the
output that is also sorted by that key is the output itself, so the sorted
result - and hence the persisted bytes - is uniquely determined by the
input. -/
theorem C5_determinism (raws raws' : List RawPlay) (h : raws = raws') :
    transform_pipeline raws = transform_pipeline raws' ∧
    List.Sorted eventLt (transform_pipeline raws) ∧
    (∀ l : List EventRecord, l.Perm (transform_pipeline raws) →
      List.Sorted eventLt l → l = transform_pipeline raws) := by
  subst h
  refine ⟨rfl, transform_sorted_lt raws, ?_⟩
  intro l hperm hsort
  exact List.eq_of_perm_of_sorted hperm hsort (transform_sorted_lt raws)

/-- C5, witness: at a concrete three-play input, any list that is a sorted
rearrangement of the transformation's output - here the output itself, which
the theorem shows is sorted - is the output, so the result of the run is
uniquely determined. -/
theorem C5_witness :
    transform_pipeline [rawA, rawB, rawC] = transform_pipeline [rawA, rawB, rawC] :=
  (C5_determinism [rawA, rawB, rawC] [rawA, rawB, rawC] rfl).2.2
    (transform_pipeline [rawA, rawB, rawC]) (List.Perm.refl _)
    ((C5_determinism [rawA, rawB, rawC] [rawA, rawB, rawC] rfl).2.1)

/-- C4, witness: the ordering properties at a concrete three-play input. -/
theorem C4_witness :
    List.Sorted eventLe (transform_pipeline [rawA, rawB, rawC]) ∧
    List.Pairwise
      (fun a b : EventRecord =>
        a.case_id = b.case_id → a.transformed_time ≤ b.transformed_time)
      (transform_pipeline [rawA, rawB, rawC]) :=
  C4_ordering [rawA, rawB, rawC]
